import Mathlib

/-!
Verification of the VoxoScribe dictation session engine.

Shallow embedding of the core of the repository:
- src/audio_recorder.py : AudioRecorder (capture state, audio callback,
  silence-monitor loop), modelled as a state machine over RecState with an
  explicit event trace (chunk deliveries, monitor polls, stop).
- src/main.py : VoxoScribe controller (_on_hotkey, _start_recording,
  _stop_recording, _on_transcription_complete), modelled as functions from
  AppState to AppState together with a log of emitted effects (Out).
- src/transcriber.py : Transcriber.transcribe, modelled with the gateway
  outcome as an explicit parameter.

Samples (numpy float32) are modelled as rationals; wall-clock timestamps are
rationals supplied by the environment.
-/

namespace VoxoScribe

/-- One block of captured audio samples (numpy float32 array in the source). -/
abbrev Chunk := List ℚ

/-- A full session buffer: concatenation of chunks. -/
abbrev AudioBuffer := List ℚ

/-- AudioRecorder.SILENCE_THRESHOLD = 0.01 -/
def SILENCE_THRESHOLD : ℚ := 1 / 100

/-- np.abs(indata).mean() : mean absolute amplitude of a chunk. -/
def meanAbs (c : Chunk) : ℚ := (c.map (fun x => |x|)).sum / c.length

/-- Device-level operations performed on the sounddevice stream. -/
inductive DevOp
  | openStream
  | startStream
  | stopStream
  | closeStream
deriving DecidableEq

/-- State of AudioRecorder (src/audio_recorder.py).

Fields _recording, _audio_data, _stream (presence), _last_sound_time and
_on_silence_callback mirror the Python attributes; the callback is an opaque
identifier.  monitorActive models whether the current session's
_monitor_silence thread is still in its loop, and fires counts invocations of
the on-silence callback. -/
structure RecState where
  recording : Bool
  audio_data : List Chunk
  streamOpen : Bool
  last_sound_time : ℚ
  on_silence : Option ℕ
  monitorActive : Bool
  fires : ℕ
deriving DecidableEq

/-- AudioRecorder.__init__ -/
def recInit : RecState :=
  { recording := false, audio_data := [], streamOpen := false,
    last_sound_time := 0, on_silence := none, monitorActive := false, fires := 0 }

/-- AudioRecorder.start_recording (lines 31-67).

now is the wall-clock time (time.time()), startOk tells whether the
sd.InputStream could be opened and started (the try block succeeds).
Returns the boolean result, the new state, and the device operations
performed. -/
def start_recording (s : RecState) (cb : Option ℕ) (now : ℚ) (startOk : Bool) :
    Bool × RecState × List DevOp :=
  if s.recording then (false, s, [])
  else
    let s1 := { s with audio_data := [], on_silence := cb, last_sound_time := now }
    if startOk then
      (true,
       { s1 with streamOpen := true, recording := true, monitorActive := true },
       [DevOp.openStream, DevOp.startStream])
    else
      (false, s1, [])

/-- AudioRecorder.stop_recording (lines 69-89).

Early-returns None when not recording; otherwise clears the flag, stops and
closes the stream if open, and returns the concatenation of the buffered
chunks, or None when none were captured. -/
def stop_recording (s : RecState) : Option AudioBuffer × RecState × List DevOp :=
  if ¬ s.recording then (none, s, [])
  else
    let s1 := { s with recording := false }
    let sops : RecState × List DevOp :=
      if s1.streamOpen then
        ({ s1 with streamOpen := false }, [DevOp.stopStream, DevOp.closeStream])
      else (s1, [])
    if sops.1.audio_data = [] then (none, sops.1, sops.2)
    else (some sops.1.audio_data.flatten, sops.1, sops.2)

/-- AudioRecorder._audio_callback (lines 95-106): append a copy of the chunk
to _audio_data, then update _last_sound_time to now iff the chunk's mean
absolute amplitude strictly exceeds SILENCE_THRESHOLD. -/
def audio_callback (s : RecState) (c : Chunk) (now : ℚ) : RecState :=
  let s1 := { s with audio_data := s.audio_data ++ [c] }
  if SILENCE_THRESHOLD < meanAbs c then { s1 with last_sound_time := now } else s1

/-- One iteration of the AudioRecorder._monitor_silence loop (lines 108-119)
observed at wall-clock time now, with silence_timeout in seconds.

If the monitor thread has already exited, nothing happens. If _recording is
false the while condition fails and the thread exits. Otherwise, when
time - _last_sound_time >= silence_timeout and _audio_data is nonempty, the
callback fires (when registered) and the loop breaks. -/
def monitor_silence_poll (timeout : ℚ) (s : RecState) (now : ℚ) : RecState :=
  if ¬ s.monitorActive then s
  else if ¬ s.recording then { s with monitorActive := false }
  else if timeout ≤ now - s.last_sound_time ∧ s.audio_data ≠ [] then
    { s with fires := s.fires + (if s.on_silence.isSome then 1 else 0),
             monitorActive := false }
  else s

/-- Events interleaved during one recording session: a chunk delivery from the
audio-driver thread, a poll of the silence-monitor thread, or a
stop_recording call from the controller. -/
inductive RecEvent
  | chunk (c : Chunk) (t : ℚ)
  | poll (t : ℚ)
  | stopRec

/-- Whether an event is a chunk delivery. -/
def RecEvent.isChunk : RecEvent → Bool
  | .chunk _ _ => true
  | _ => false

/-- Interleaving semantics: effect of one event on the recorder state. -/
def rec_step (timeout : ℚ) (s : RecState) : RecEvent → RecState
  | .chunk c t => audio_callback s c t
  | .poll t => monitor_silence_poll timeout s t
  | .stopRec => (stop_recording s).2.1

/-- Run a trace of events. -/
def rec_run (timeout : ℚ) (s : RecState) (evs : List RecEvent) : RecState :=
  evs.foldl (rec_step timeout) s

/-- Default silence timeout: config silence_timeout_ms = 1500 over 1000. -/
def default_silence_timeout : ℚ := 1500 / 1000

/-- Python str.strip(): drop leading and trailing whitespace. -/
def pyStrip (s : String) : String :=
  String.mk
    (((s.data.dropWhile Char.isWhitespace).reverse.dropWhile
        Char.isWhitespace).reverse)

/-! ## Transcriber (src/transcriber.py) -/

/-- Outcome of the underlying faster-whisper call, decided by the
environment: either the produced segments' texts, or an exception. -/
inductive GatewayOutcome
  | ok (segments : List String)
  | error (msg : String)

/-- Transcriber.transcribe (lines 70-112).

modelAfterLoad is the _model field after the reload attempt at the top of the
method (None when no model could be loaded). With no model the result is "";
an exception in the transcription call is caught and yields ""; otherwise the
segments' texts are stripped and joined with single spaces. -/
def transcribe (modelAfterLoad : Option String) (outcome : GatewayOutcome) : String :=
  match modelAfterLoad with
  | none => ""
  | some _ =>
    match outcome with
    | .error _ => ""
    | .ok segments => String.intercalate " " (segments.map (fun t => pyStrip t))

/-! ## Session controller (src/main.py) -/

/-- Effects emitted by the controller, in order: tray status changes, overlay
calls, tray notifications, capture start/stop invocations, the asynchronous
transcription dispatch, and keyboard output. -/
inductive Out
  | setStatus (status : String)
  | showRecording
  | showProcessing
  | hideOverlay
  | notify (title message : String)
  | captureStart
  | captureStop
  | transcribeDispatch (audio : AudioBuffer)
  | typeText (text : String) (useClipboard : Bool)
deriving DecidableEq

/-- Whether an effect is a tray notification. -/
def Out.isNotify : Out → Bool
  | .notify _ _ => true
  | _ => false

/-- Whether an effect is a keyboard-output (OutputSink) invocation. -/
def Out.isTypeText : Out → Bool
  | .typeText _ _ => true
  | _ => false

/-- Whether an effect is a transcription dispatch. -/
def Out.isDispatch : Out → Bool
  | .transcribeDispatch _ => true
  | _ => false

/-- State of the VoxoScribe controller (src/main.py) together with the
recorder it drives: the _recording and _processing flags plus the
AudioRecorder singleton's state. -/
structure AppState where
  recording : Bool
  processing : Bool
  recorder : RecState
deriving DecidableEq

/-- VoxoScribe._on_transcription_complete (lines 139-154).

Clears _processing, sets tray idle, hides the overlay; when the stripped text
is nonempty, types it, retrying via clipboard when direct typing fails
(typeOk is the environment's answer to the first type_text call). -/
def on_transcription_complete (s : AppState) (text : String) (typeOk : Bool) :
    AppState × List Out :=
  let s1 := { s with processing := false }
  let outs := [Out.setStatus "idle", Out.hideOverlay]
  if pyStrip text ≠ "" then
    (s1, outs ++
      (if typeOk then [Out.typeText (pyStrip text) false]
       else [Out.typeText (pyStrip text) false,
             Out.typeText (pyStrip text) true]))
  else (s1, outs)

/-- VoxoScribe._start_recording (lines 93-112).

Sets _recording, updates UI, then calls AudioRecorder.start_recording with
the silence callback; on failure reverts to idle and shows exactly one
notification. show_overlay is config.show_overlay; now and startOk are the
environment. -/
def ctrl_start_recording (s : AppState) (show_overlay : Bool) (now : ℚ)
    (startOk : Bool) : AppState × List Out :=
  let s1 := { s with recording := true }
  let outs1 := Out.setStatus "recording" ::
    (if show_overlay then [Out.showRecording] else []) ++ [Out.captureStart]
  let r := start_recording s1.recorder (some 0) now startOk
  let s2 := { s1 with recorder := r.2.1 }
  if r.1 then (s2, outs1)
  else
    ({ s2 with recording := false },
     outs1 ++ [Out.setStatus "idle", Out.hideOverlay,
               Out.notify "Recording Failed"
                 "Could not start recording. Check your microphone."])

/-- VoxoScribe._stop_recording (lines 114-131).

Clears _recording, sets _processing, updates UI, stops the recorder; when the
returned buffer is present and nonempty it dispatches the asynchronous
transcription, otherwise it completes inline with the empty string. -/
def ctrl_stop_recording (s : AppState) (show_overlay : Bool) (typeOk : Bool) :
    AppState × List Out :=
  let s1 := { s with recording := false, processing := true }
  let outs1 := Out.setStatus "processing" ::
    (if show_overlay then [Out.showProcessing] else []) ++ [Out.captureStop]
  let r := stop_recording s1.recorder
  let s2 := { s1 with recorder := r.2.1 }
  match r.1 with
  | some a =>
    if 0 < a.length then (s2, outs1 ++ [Out.transcribeDispatch a])
    else
      let c := on_transcription_complete s2 "" typeOk
      (c.1, outs1 ++ c.2)
  | none =>
    let c := on_transcription_complete s2 "" typeOk
    (c.1, outs1 ++ c.2)

/-- VoxoScribe._on_hotkey (lines 82-91): under the lock, a trigger is ignored
while _processing; otherwise it toggles between starting and stopping. -/
def on_hotkey (s : AppState) (show_overlay : Bool) (now : ℚ)
    (startOk : Bool) (typeOk : Bool) : AppState × List Out :=
  if s.processing then (s, [])
  else if s.recording then ctrl_stop_recording s show_overlay typeOk
  else ctrl_start_recording s show_overlay now startOk

/-- VoxoScribe._on_silence_detected (lines 133-137). -/
def on_silence_detected (s : AppState) (show_overlay : Bool) (typeOk : Bool) :
    AppState × List Out :=
  if s.recording ∧ ¬ s.processing then ctrl_stop_recording s show_overlay typeOk
  else (s, [])

/-- Delivery of a list of timed chunks to the audio callback. -/
def deliver (s : RecState) (ds : List (Chunk × ℚ)) : RecState :=
  ds.foldl (fun st p => audio_callback st p.1 p.2) s

/-! ## Helper lemmas -/

lemma audio_callback_recording (s : RecState) (c : Chunk) (t : ℚ) :
    (audio_callback s c t).recording = s.recording := by
  unfold audio_callback; split <;> rfl

lemma audio_callback_streamOpen (s : RecState) (c : Chunk) (t : ℚ) :
    (audio_callback s c t).streamOpen = s.streamOpen := by
  unfold audio_callback; split <;> rfl

lemma audio_callback_audio_data (s : RecState) (c : Chunk) (t : ℚ) :
    (audio_callback s c t).audio_data = s.audio_data ++ [c] := by
  unfold audio_callback; split <;> rfl

lemma audio_callback_fires (s : RecState) (c : Chunk) (t : ℚ) :
    (audio_callback s c t).fires = s.fires := by
  unfold audio_callback; split <;> rfl

lemma audio_callback_monitorActive (s : RecState) (c : Chunk) (t : ℚ) :
    (audio_callback s c t).monitorActive = s.monitorActive := by
  unfold audio_callback; split <;> rfl

lemma deliver_recording (s : RecState) (ds : List (Chunk × ℚ)) :
    (deliver s ds).recording = s.recording := by
  induction ds generalizing s with
  | nil => rfl
  | cons d ds ih => rw [deliver, List.foldl_cons, ← deliver, ih, audio_callback_recording]

lemma deliver_streamOpen (s : RecState) (ds : List (Chunk × ℚ)) :
    (deliver s ds).streamOpen = s.streamOpen := by
  induction ds generalizing s with
  | nil => rfl
  | cons d ds ih => rw [deliver, List.foldl_cons, ← deliver, ih, audio_callback_streamOpen]

lemma deliver_audio_data (s : RecState) (ds : List (Chunk × ℚ)) :
    (deliver s ds).audio_data = s.audio_data ++ ds.map Prod.fst := by
  induction ds generalizing s with
  | nil => simp [deliver]
  | cons d ds ih =>
    rw [deliver, List.foldl_cons, ← deliver, ih, audio_callback_audio_data]
    simp

lemma stop_recording_fires (s : RecState) :
    (stop_recording s).2.1.fires = s.fires := by
  unfold stop_recording
  split
  · rfl
  · dsimp only; split <;> split <;> rfl

lemma stop_recording_audio_data (s : RecState) :
    (stop_recording s).2.1.audio_data = s.audio_data := by
  unfold stop_recording
  split
  · rfl
  · dsimp only; split <;> split <;> rfl

lemma stop_recording_result (s : RecState) (hrec : s.recording = true)
    (hne : s.audio_data ≠ []) :
    (stop_recording s).1 = some s.audio_data.flatten := by
  unfold stop_recording
  rw [if_neg (by simp [hrec])]
  dsimp only
  split <;> simp [hne]

lemma stop_recording_none_of_empty (s : RecState) (hrec : s.recording = true)
    (hd : s.audio_data = []) :
    (stop_recording s).1 = none := by
  unfold stop_recording
  rw [if_neg (by simp [hrec])]
  dsimp only
  split <;> simp [hd]

lemma stop_recording_monitorActive (s : RecState) :
    (stop_recording s).2.1.monitorActive = s.monitorActive := by
  unfold stop_recording
  split
  · rfl
  · dsimp only; split <;> split <;> rfl

lemma stop_recording_not_recording (s : RecState) (h : s.recording = false) :
    stop_recording s = (none, s, []) := by
  unfold stop_recording
  rw [if_pos (by simp [h])]

lemma stop_recording_clears_flag (s : RecState) (h : s.recording = true) :
    (stop_recording s).2.1.recording = false := by
  unfold stop_recording
  rw [if_neg (by simp [h])]
  dsimp only
  split <;> split <;> rfl

lemma monitor_poll_empty_fires (timeout : ℚ) (s : RecState) (t : ℚ)
    (hd : s.audio_data = []) :
    (monitor_silence_poll timeout s t).fires = s.fires ∧
    (monitor_silence_poll timeout s t).audio_data = [] := by
  unfold monitor_silence_poll
  split
  · exact ⟨rfl, hd⟩
  · split
    · exact ⟨rfl, hd⟩
    · split
      · rename_i hcond
        exact absurd hd hcond.2
      · exact ⟨rfl, hd⟩

/-- Upper bound on future fires: the current count plus one pending signal
when the monitor thread is still in its loop. -/
def pot (s : RecState) : ℕ :=
  s.fires + (if s.monitorActive then 1 else 0)

lemma pot_step (timeout : ℚ) (s : RecState) (e : RecEvent) :
    pot (rec_step timeout s e) ≤ pot s := by
  cases e with
  | chunk c t =>
    show pot (audio_callback s c t) ≤ pot s
    unfold pot
    rw [audio_callback_fires, audio_callback_monitorActive]
  | poll t =>
    show pot (monitor_silence_poll timeout s t) ≤ pot s
    unfold pot monitor_silence_poll
    split
    · exact le_refl _
    · rename_i hact
      have hact' : s.monitorActive = true := by
        revert hact; cases s.monitorActive <;> simp
      split
      · simp [hact']
      · split
        · dsimp only
          cases s.on_silence.isSome <;> simp
        · exact le_refl _
  | stopRec =>
    unfold pot
    show (stop_recording s).2.1.fires +
      (if (stop_recording s).2.1.monitorActive then 1 else 0) ≤ _
    rw [stop_recording_fires, stop_recording_monitorActive]

lemma pot_run (timeout : ℚ) (s : RecState) (evs : List RecEvent) :
    pot (rec_run timeout s evs) ≤ pot s := by
  induction evs generalizing s with
  | nil => exact le_refl _
  | cons e evs ih => exact le_trans (ih (rec_step timeout s e)) (pot_step timeout s e)

lemma chain_le_of_le {a b : ℚ} {l : List ℚ} (hab : a ≤ b)
    (h : List.Chain (fun x y => x ≤ y) b l) :
    List.Chain (fun x y => x ≤ y) a l := by
  cases h with
  | nil => exact List.Chain.nil
  | cons hbc hcl => exact List.Chain.cons (le_trans hab hbc) hcl

/-- A RecState in the middle of a live session with no monitor fired yet. -/
def armedRec : RecState :=
  { recording := true, audio_data := [[1]], streamOpen := true,
    last_sound_time := 0, on_silence := some 0, monitorActive := true,
    fires := 0 }

/-- An AppState in the Processing phase. -/
def processingApp : AppState :=
  { recording := false, processing := true, recorder := recInit }

/-- An AppState in a live Recording phase whose session captured no chunks. -/
def emptySessionApp : AppState :=
  { recording := true, processing := false,
    recorder := { recording := true, audio_data := [], streamOpen := true,
                  last_sound_time := 0, on_silence := some 0,
                  monitorActive := true, fires := 0 } }

/-! ## Claims -/

/-- C1: while the controller is Processing, a hotkey trigger is a no-op: the
handler returns with the state (both flags and the whole recorder state)
unchanged and emits no effect, in particular no capture start or stop. -/
theorem hotkey_noop_while_processing (s : AppState) (show_overlay : Bool)
    (now : ℚ) (startOk typeOk : Bool) (h : s.processing = true) :
    on_hotkey s show_overlay now startOk typeOk = (s, []) := by
  simp [on_hotkey, h]

theorem hotkey_noop_while_processing_witness :
    processingApp.processing = true ∧
    on_hotkey processingApp true 0 true true = (processingApp, []) :=
  ⟨rfl, hotkey_noop_while_processing processingApp true 0 true true rfl⟩

/-- C3: a transcription failure surfaces as the empty string (no loadable
model, or an exception in the gateway call), and the completion handler
unconditionally clears the Processing flag, so the controller never stays in
Processing after the transcription call finishes. -/
theorem transcription_failure_still_reaches_idle :
    (∀ outcome, transcribe none outcome = "") ∧
    (∀ m msg, transcribe (some m) (GatewayOutcome.error msg) = "") ∧
    (∀ s text typeOk,
       (on_transcription_complete s text typeOk).1.processing = false) ∧
    (∀ s typeOk,
       (on_transcription_complete s "" typeOk).2 =
         [Out.setStatus "idle", Out.hideOverlay]) := by
  refine ⟨fun _ => rfl, fun _ _ => rfl, fun s text typeOk => ?_, fun s typeOk => ?_⟩
  · unfold on_transcription_complete
    split <;> rfl
  · unfold on_transcription_complete
    rw [if_neg (show ¬(pyStrip "" ≠ "") by decide)]

/-- C4: a hotkey taken from Idle whose capture start fails (the device cannot
be opened, or the recorder is already recording) leaves the controller Idle
(recording and processing both false) and emits exactly one failure
notification. -/
theorem capture_start_failure_reverts_to_idle (s : AppState)
    (show_overlay : Bool) (now : ℚ) (startOk typeOk : Bool)
    (hp : s.processing = false) (hr : s.recording = false)
    (hfail : startOk = false ∨ s.recorder.recording = true) :
    (on_hotkey s show_overlay now startOk typeOk).1.recording = false ∧
    (on_hotkey s show_overlay now startOk typeOk).1.processing = false ∧
    (on_hotkey s show_overlay now startOk typeOk).2.filter Out.isNotify =
      [Out.notify "Recording Failed"
        "Could not start recording. Check your microphone."] := by
  rcases hfail with h | h
  · subst h
    cases hsr : s.recorder.recording <;> cases show_overlay <;>
      simp [on_hotkey, ctrl_start_recording, start_recording, hp, hr, hsr,
            Out.isNotify]
  · cases show_overlay <;>
      simp [on_hotkey, ctrl_start_recording, start_recording, hp, hr, h,
            Out.isNotify]

theorem capture_start_failure_reverts_to_idle_witness :
    (on_hotkey { recording := false, processing := false, recorder := recInit }
        true 0 false true).1.recording = false ∧
    (on_hotkey { recording := false, processing := false, recorder := recInit }
        true 0 false true).1.processing = false ∧
    (on_hotkey { recording := false, processing := false, recorder := recInit }
        true 0 false true).2.filter Out.isNotify =
      [Out.notify "Recording Failed"
        "Could not start recording. Check your microphone."] :=
  capture_start_failure_reverts_to_idle
    { recording := false, processing := false, recorder := recInit }
    true 0 false true rfl rfl (Or.inl rfl)

/-- C9: after a successful start followed by any nonempty sequence of chunk
deliveries, stop_recording returns exactly the concatenation of the delivered
chunks in arrival order. -/
theorem stop_returns_concatenation_in_order (s : RecState) (cb : Option ℕ)
    (now : ℚ) (ds : List (Chunk × ℚ)) (hrec : s.recording = false)
    (hne : ds ≠ []) :
    (stop_recording (deliver (start_recording s cb now true).2.1 ds)).1 =
      some (ds.map Prod.fst).flatten := by
  set s1 := (start_recording s cb now true).2.1 with hs1
  have hs1rec : s1.recording = true := by
    rw [hs1]; unfold start_recording; rw [hrec]; rfl
  have hs1data : s1.audio_data = [] := by
    rw [hs1]; unfold start_recording; rw [hrec]; rfl
  have hs1stream : s1.streamOpen = true := by
    rw [hs1]; unfold start_recording; rw [hrec]; rfl
  have hdrec : (deliver s1 ds).recording = true := by
    rw [deliver_recording, hs1rec]
  have hddata : (deliver s1 ds).audio_data = ds.map Prod.fst := by
    rw [deliver_audio_data, hs1data, List.nil_append]
  have hmapne : ds.map Prod.fst ≠ [] := by
    intro h
    exact hne (List.map_eq_nil_iff.mp h)
  have hres := stop_recording_result (deliver s1 ds) hdrec
    (by rw [hddata]; exact hmapne)
  rw [hres, hddata]

theorem stop_returns_concatenation_in_order_witness :
    [(([(1 : ℚ)], (1 : ℚ))), (([(0 : ℚ)], (2 : ℚ)))] ≠ [] ∧
    (stop_recording (deliver (start_recording recInit (some 0) 0 true).2.1
        [([(1 : ℚ)], (1 : ℚ)), ([(0 : ℚ)], (2 : ℚ))])).1 =
      some ([[(1 : ℚ)], [(0 : ℚ)]].flatten) :=
  ⟨by simp,
   stop_returns_concatenation_in_order recInit (some 0) 0
     [([(1 : ℚ)], (1 : ℚ)), ([(0 : ℚ)], (2 : ℚ))] rfl (by simp)⟩

/-- C10: calling start_recording while a recording is already in progress
returns false and leaves the recorder state entirely unchanged (buffered
audio kept, silence callback kept, no second stream opened, no device
operation). -/
theorem start_noop_while_recording (s : RecState) (cb : Option ℕ) (now : ℚ)
    (startOk : Bool) (h : s.recording = true) :
    start_recording s cb now startOk = (false, s, []) := by
  simp [start_recording, h]

theorem start_noop_while_recording_witness :
    armedRec.recording = true ∧
    start_recording armedRec (some 1) 5 true = (false, armedRec, []) :=
  ⟨rfl, start_noop_while_recording armedRec (some 1) 5 true rfl⟩

/-- C5: starting from a state whose chunk buffer is empty (as after
start_recording), no interleaving of monitor polls and stops, with no chunk
delivery, can make the silence signal fire, no matter how much time the poll
timestamps let elapse. -/
theorem monitor_never_fires_before_first_chunk (timeout : ℚ) (s : RecState)
    (evs : List RecEvent) (hdata : s.audio_data = [])
    (hnochunk : ∀ e ∈ evs, e.isChunk = false) :
    (rec_run timeout s evs).fires = s.fires := by
  induction evs generalizing s with
  | nil => rfl
  | cons e evs ih =>
    have he := hnochunk e (List.mem_cons_self e evs)
    have hrest : ∀ e2 ∈ evs, e2.isChunk = false :=
      fun e2 h2 => hnochunk e2 (List.mem_cons_of_mem e h2)
    cases e with
    | chunk c t => simp [RecEvent.isChunk] at he
    | poll t =>
      have h1 := monitor_poll_empty_fires timeout s t hdata
      calc (rec_run timeout (rec_step timeout s (RecEvent.poll t)) evs).fires
          = (monitor_silence_poll timeout s t).fires := ih _ h1.2 hrest
        _ = s.fires := h1.1
    | stopRec =>
      have h2 : (rec_step timeout s RecEvent.stopRec).audio_data = [] := by
        show (stop_recording s).2.1.audio_data = []
        rw [stop_recording_audio_data]; exact hdata
      calc (rec_run timeout (rec_step timeout s RecEvent.stopRec) evs).fires
          = (stop_recording s).2.1.fires := ih _ h2 hrest
        _ = s.fires := stop_recording_fires s

theorem monitor_never_fires_before_first_chunk_witness :
    (emptySessionApp.recorder.audio_data = []) ∧
    (∀ e ∈ [RecEvent.poll 100, RecEvent.poll 200], e.isChunk = false) ∧
    (rec_run default_silence_timeout emptySessionApp.recorder
        [RecEvent.poll 100, RecEvent.poll 200]).fires =
      emptySessionApp.recorder.fires :=
  ⟨rfl, by decide,
   monitor_never_fires_before_first_chunk default_silence_timeout
     emptySessionApp.recorder [RecEvent.poll 100, RecEvent.poll 200] rfl
     (by decide)⟩

/-- C6: the silence signal fires at most once per monitoring session (any
event trace adds at most one fire, and none when the monitor is not armed);
a poll that sees the timeout elapsed with at least one chunk observed fires
exactly one signal and stops the monitor; once stopped, polls are no-ops;
and a successful start_recording re-arms a fresh session with an empty chunk
buffer and no carried-over signal. -/
theorem silence_fires_exactly_once_per_session :
    (∀ timeout (s : RecState) evs,
       (rec_run timeout s evs).fires ≤
         s.fires + (if s.monitorActive then 1 else 0)) ∧
    (∀ timeout (s : RecState) t,
       s.monitorActive = true → s.recording = true →
       s.on_silence.isSome = true → timeout ≤ t - s.last_sound_time →
       s.audio_data ≠ [] →
       (monitor_silence_poll timeout s t).fires = s.fires + 1 ∧
       (monitor_silence_poll timeout s t).monitorActive = false) ∧
    (∀ timeout (s : RecState) t,
       s.monitorActive = false → monitor_silence_poll timeout s t = s) ∧
    (∀ (s : RecState) cb now,
       s.recording = false →
       (start_recording s cb now true).2.1.monitorActive = true ∧
       (start_recording s cb now true).2.1.audio_data = [] ∧
       (start_recording s cb now true).2.1.fires = s.fires) := by
  refine ⟨?_, ?_, ?_, ?_⟩
  · intro timeout s evs
    exact le_trans (Nat.le_add_right _ _) (pot_run timeout s evs)
  · intro timeout s t hact hrec hsome hto hdata
    unfold monitor_silence_poll
    rw [if_neg (by simp [hact]), if_neg (by simp [hrec]),
        if_pos (⟨hto, hdata⟩ : timeout ≤ t - s.last_sound_time ∧
          s.audio_data ≠ [])]
    constructor
    · simp [hsome]
    · rfl
  · intro timeout s t hinact
    unfold monitor_silence_poll
    rw [if_pos (by simp [hinact])]
  · intro s cb now hrec
    unfold start_recording
    rw [if_neg (by simp [hrec])]
    exact ⟨rfl, rfl, rfl⟩

/-- A RecState whose monitor thread has already exited. -/
def firedRec : RecState :=
  { recording := true, audio_data := [[1]], streamOpen := true,
    last_sound_time := 0, on_silence := some 0, monitorActive := false,
    fires := 1 }

theorem silence_fires_exactly_once_per_session_witness :
    ((rec_run (3/2) armedRec [RecEvent.poll 2]).fires ≤
       armedRec.fires + (if armedRec.monitorActive then 1 else 0)) ∧
    ((monitor_silence_poll (3/2) armedRec 2).fires = armedRec.fires + 1 ∧
     (monitor_silence_poll (3/2) armedRec 2).monitorActive = false) ∧
    (monitor_silence_poll (3/2) firedRec 2 = firedRec) ∧
    ((start_recording recInit (some 0) 0 true).2.1.monitorActive = true ∧
     (start_recording recInit (some 0) 0 true).2.1.audio_data = [] ∧
     (start_recording recInit (some 0) 0 true).2.1.fires = recInit.fires) :=
  ⟨silence_fires_exactly_once_per_session.1 (3/2) armedRec [RecEvent.poll 2],
   silence_fires_exactly_once_per_session.2.1 (3/2) armedRec 2 rfl rfl rfl
     (by norm_num [armedRec]) (by simp [armedRec]),
   silence_fires_exactly_once_per_session.2.2.1 (3/2) firedRec 2 rfl,
   silence_fires_exactly_once_per_session.2.2.2 recInit (some 0) 0 rfl⟩

/-- C7: the audio callback updates the last-sound timestamp to the current
time exactly when the chunk's mean absolute amplitude strictly exceeds the
threshold, never decreases it when the clock has not gone backwards, and
over any sequence of chunk deliveries with non-decreasing timestamps the
deadline is monotonically non-decreasing. -/
theorem silence_deadline_monotone :
    (∀ (s : RecState) c t,
       (audio_callback s c t).last_sound_time =
         if SILENCE_THRESHOLD < meanAbs c then t else s.last_sound_time) ∧
    (∀ (s : RecState) c t,
       s.last_sound_time ≤ t →
       s.last_sound_time ≤ (audio_callback s c t).last_sound_time) ∧
    (∀ (s : RecState) (ds : List (Chunk × ℚ)),
       List.Chain (fun x y => x ≤ y) s.last_sound_time (ds.map Prod.snd) →
       s.last_sound_time ≤ (deliver s ds).last_sound_time) := by
  refine ⟨?_, ?_, ?_⟩
  · intro s c t
    unfold audio_callback
    split <;> rfl
  · intro s c t h
    unfold audio_callback
    split
    · exact h
    · exact le_refl _
  · intro s ds
    induction ds generalizing s with
    | nil => intro _; exact le_refl _
    | cons d ds ih =>
      intro h
      rw [List.map_cons] at h
      cases h with
      | cons hd htl =>
        have hstep : (audio_callback s d.1 d.2).last_sound_time = d.2 ∨
            (audio_callback s d.1 d.2).last_sound_time = s.last_sound_time := by
          unfold audio_callback
          split
          · exact Or.inl rfl
          · exact Or.inr rfl
        have hchain2 : List.Chain (fun x y => x ≤ y)
            (audio_callback s d.1 d.2).last_sound_time (ds.map Prod.snd) := by
          rcases hstep with h1 | h1
          · rw [h1]; exact htl
          · rw [h1]; exact chain_le_of_le hd htl
        have hrec := ih (audio_callback s d.1 d.2) hchain2
        show s.last_sound_time ≤
          (deliver (audio_callback s d.1 d.2) ds).last_sound_time
        rcases hstep with h1 | h1
        · rw [h1] at hrec
          exact le_trans hd hrec
        · rw [h1] at hrec
          exact hrec

theorem silence_deadline_monotone_witness :
    ((audio_callback armedRec [1] 2).last_sound_time =
       if SILENCE_THRESHOLD < meanAbs [1] then (2 : ℚ)
       else armedRec.last_sound_time) ∧
    (armedRec.last_sound_time ≤
       (audio_callback armedRec [1] 2).last_sound_time) ∧
    (armedRec.last_sound_time ≤
       (deliver armedRec [([1], 1), ([0], 2)]).last_sound_time) :=
  ⟨silence_deadline_monotone.1 armedRec [1] 2,
   silence_deadline_monotone.2.1 armedRec [1] 2 (by norm_num [armedRec]),
   silence_deadline_monotone.2.2 armedRec [([1], 1), ([0], 2)] (by
     simp only [List.map_cons, List.map_nil]
     refine List.Chain.cons ?_ (List.Chain.cons ?_ List.Chain.nil) <;>
       norm_num [armedRec])⟩

/-- C8 counterexample: stop_recording on a never-started recorder returns
None, which is not the empty buffer the claim promises. -/
theorem stop_when_not_started_cex :
    (stop_recording recInit).1 = none ∧
    (stop_recording recInit).1 ≠ some ([] : AudioBuffer) := by
  exact ⟨rfl, by decide⟩

/-- C8 (amended): stop_recording when not recording returns None with no
device operation and no state change; after a session with no captured
chunks it also returns None; and a second stop after a stop again returns
None. The controller treats the None result exactly like an empty buffer. -/
theorem stop_idempotent_empty_returns_none (s s2 : RecState)
    (h : s.recording = false) (h2 : s2.recording = true)
    (hd : s2.audio_data = []) :
    stop_recording s = (none, s, []) ∧
    (stop_recording s2).1 = none ∧
    (stop_recording (stop_recording s2).2.1).1 = none := by
  refine ⟨stop_recording_not_recording s h,
    stop_recording_none_of_empty s2 h2 hd, ?_⟩
  rw [stop_recording_not_recording _ (stop_recording_clears_flag s2 h2)]

theorem stop_idempotent_empty_returns_none_witness :
    stop_recording recInit = (none, recInit, []) ∧
    (stop_recording emptySessionApp.recorder).1 = none ∧
    (stop_recording (stop_recording emptySessionApp.recorder).2.1).1 = none :=
  stop_idempotent_empty_returns_none recInit emptySessionApp.recorder
    rfl rfl rfl

/-- C2 counterexample: stopping a session that captured no chunks yields the
None buffer, and the resulting effect trace contains no keyboard-output
call: nothing is delivered to the output collaborator, contradicting the
claim's delivery clause. -/
theorem empty_buffer_no_output_delivery_cex :
    emptySessionApp.recording = true ∧
    (stop_recording emptySessionApp.recorder).1 = none ∧
    (ctrl_stop_recording emptySessionApp true true).2.filter
      Out.isTypeText = [] := by
  exact ⟨rfl, rfl, by decide⟩

/-- C2 (amended): when stop_recording yields no samples (None or an empty
concatenation), the controller transitions Recording → Processing → Idle,
emits exactly the status/overlay/stop effects with no transcription dispatch
and no keyboard output: the completion handler runs inline with the empty
string and the output collaborator is not invoked. -/
theorem empty_buffer_skips_transcription (s : AppState)
    (show_overlay typeOk : Bool) (_hr : s.recording = true)
    (_hp : s.processing = false)
    (hempty : (stop_recording s.recorder).1 = none ∨
              (stop_recording s.recorder).1 = some ([] : AudioBuffer)) :
    (ctrl_stop_recording s show_overlay typeOk).1.recording = false ∧
    (ctrl_stop_recording s show_overlay typeOk).1.processing = false ∧
    (ctrl_stop_recording s show_overlay typeOk).2 =
      Out.setStatus "processing" ::
        (if show_overlay then [Out.showProcessing] else []) ++
        [Out.captureStop, Out.setStatus "idle", Out.hideOverlay] := by
  unfold ctrl_stop_recording
  dsimp only
  rcases hempty with h | h <;> rw [h] <;>
    unfold on_transcription_complete <;>
    rw [if_neg (show ¬(pyStrip "" ≠ "") by decide)] <;>
    cases show_overlay <;> simp

theorem empty_buffer_skips_transcription_witness :
    emptySessionApp.recording = true ∧
    emptySessionApp.processing = false ∧
    ((stop_recording emptySessionApp.recorder).1 = none ∨
     (stop_recording emptySessionApp.recorder).1 = some ([] : AudioBuffer)) ∧
    ((ctrl_stop_recording emptySessionApp true false).1.recording = false ∧
     (ctrl_stop_recording emptySessionApp true false).1.processing = false ∧
     (ctrl_stop_recording emptySessionApp true false).2 =
       Out.setStatus "processing" ::
         (if true then [Out.showProcessing] else []) ++
         [Out.captureStop, Out.setStatus "idle", Out.hideOverlay]) :=
  ⟨rfl, rfl, Or.inl rfl,
   empty_buffer_skips_transcription emptySessionApp true false rfl rfl
     (Or.inl rfl)⟩

end VoxoScribe
